import Mathlib

/-!
Shallow embedding of `src/NMEASentenceTrackerandMapper.py` (class `NMEATracker`).

External collaborators (the `pynmea2` decoder and the `folium` renderer) are
out of scope per the specification; a frame therefore carries the decoder's
outcome as data, and the folium map document is modelled as the state the
renderer operations mutate (markers added, polylines added, center location).
Coordinates are modelled as rationals (signed real degrees), timestamps as
an opaque `Nat`.
-/

namespace NMEA

/-- Outcome of `pynmea2.parse` on a frame: the decoded object, seen through
the attribute accesses the source performs (`hasattr(parsed, 'latitude')`,
`hasattr(parsed, 'longitude')`, `hasattr(parsed, 'timestamp')`,
`hasattr(parsed, 'datetime')`); `none` models a missing attribute. -/
structure Parsed where
  latitude : Option ℚ
  longitude : Option ℚ
  timestamp : Option Nat
  datetime : Option Nat
deriving DecidableEq, Repr

/-- Result of invoking the external decoder `pynmea2.parse` on a frame:
it either raises `pynmea2.ParseError`, raises some other exception, or
returns a parsed object. -/
inductive DecodeOutcome where
  | parseError
  | exn
  | ok (p : Parsed)
deriving DecidableEq, Repr

/-- A frame pulled from the queue: its raw text (for the `startswith`
dispatch) together with what the external decoder would do with it. -/
structure Frame where
  raw : String
  decodeResult : DecodeOutcome
deriving DecidableEq, Repr

/-- Python `s.startswith(pre)`. -/
def startswith (s pre : String) : Bool :=
  pre.toList.isPrefixOf s.toList

/-- A track point as stored in `self.track_points` (the dict built at
lines 148-152): latitude, longitude, timestamp. -/
structure Fix where
  latitude : ℚ
  longitude : ℚ
  timestamp : Nat
deriving DecidableEq, Repr

/-- A folium marker as added by `_update_map` (lines 178-182): location
and the timestamp shown in the popup. -/
structure Marker where
  latitude : ℚ
  longitude : ℚ
  timestamp : Nat
deriving DecidableEq, Repr

/-- The mutable state of an `NMEATracker` touched by the fix-extraction and
rendering code: `self.track_points` and the folium map document
(`self.map`), the latter modelled by its center `location`, the markers
added to it, and the polylines added to it (folium `add_to` appends a
child element; nothing ever removes one). -/
structure TrackerState where
  track_points : List Fix
  location : ℚ × ℚ
  markers : List Marker
  polylines : List (List (ℚ × ℚ))
deriving DecidableEq, Repr

/-- State after `__init__` (lines 26-30): empty track, map centered at
`[0, 0]`, no overlays. -/
def initState : TrackerState :=
  { track_points := [], location := (0, 0), markers := [], polylines := [] }

/-- `_update_map` (lines 169-195): add one marker at the point's
coordinates annotated with its timestamp; if `len(self.track_points) > 1`,
build the route from the entire current `self.track_points` and add a new
polyline to the map.  The argument state is the state at call time, i.e.
with the point already appended to `track_points` (line 153 runs before
line 156). -/
def update_map (s : TrackerState) (p : Fix) : TrackerState :=
  let s1 := { s with markers := s.markers ++ [⟨p.latitude, p.longitude, p.timestamp⟩] }
  if s1.track_points.length > 1 then
    { s1 with polylines :=
        s1.polylines ++ [s1.track_points.map (fun q => (q.latitude, q.longitude))] }
  else
    s1

/-- Lines 148-156 of `_parse_nmea`: build the track point, append it to
`self.track_points`, then call `_update_map`.  This is the Track Store's
`append` operation of the specification. -/
def append_fix (s : TrackerState) (p : Fix) : TrackerState :=
  update_map { s with track_points := s.track_points ++ [p] } p

/-- Timestamp extraction (lines 140-145): `parsed.timestamp` if present,
else `parsed.datetime` if present, else `datetime.now()` (the `now`
argument). -/
def tsOf (parsed : Parsed) (now : Nat) : Nat :=
  match parsed.timestamp with
  | some t => t
  | none =>
    match parsed.datetime with
    | some t => t
    | none => now

/-- The exceptions that can propagate to `_parse_nmea`'s handlers:
`pynmea2.ParseError` (caught at line 162), another exception raised by the
decoder, and the `UnboundLocalError` raised by `return track_point` at
line 160 when `track_point` was never assigned (both caught at line 164). -/
inductive PyError where
  | parseError
  | decodeExn
  | unboundLocal
deriving DecidableEq, Repr

/-- The `try` block of `_parse_nmea` (lines 127-160).  If the sentence
starts with `$GNGGA` or `$GNRMC` it is decoded; a decoder exception
propagates; if the decoded object has both `latitude` and `longitude`
the track point is built, appended and rendered and returned; otherwise
the `return track_point` at line 160 raises `UnboundLocalError` (the
variable was never assigned, and no mutation has happened on that path).
A non-recognized sentence falls through to the final `return None`
(line 167). -/
def parse_nmea_try (s : TrackerState) (now : Nat) (f : Frame) :
    Except PyError (TrackerState × Option Fix) :=
  if startswith f.raw "$GNGGA" || startswith f.raw "$GNRMC" then
    match f.decodeResult with
    | .parseError => .error .parseError
    | .exn => .error .decodeExn
    | .ok parsed =>
      match parsed.latitude, parsed.longitude with
      | some lat, some lon =>
        let p : Fix := ⟨lat, lon, tsOf parsed now⟩
        .ok (append_fix s p, some p)
      | _, _ => .error .unboundLocal
  else
    .ok (s, none)

/-- `_parse_nmea` (lines 117-167): the `try` block wrapped in the handlers
at lines 162-165, which log and fall through to `return None`.  Every
raising path of the `try` block raises before any mutation, so the state
is returned unchanged on the error paths. -/
def parse_nmea (s : TrackerState) (now : Nat) (f : Frame) :
    TrackerState × Option Fix :=
  match parse_nmea_try s now f with
  | .ok r => r
  | .error _ => (s, none)

/-- The per-frame acceptance condition of the pipeline: recognized sentence
type, decoder succeeded, and the decoded object exposes both a latitude
and a longitude. -/
def acceptedFrame (f : Frame) : Bool :=
  (startswith f.raw "$GNGGA" || startswith f.raw "$GNRMC") &&
    (match f.decodeResult with
     | .ok p => p.latitude.isSome && p.longitude.isSome
     | _ => false)

/-- The fix a single frame contributes, if accepted: the functional core
of `_parse_nmea`, independent of the tracker state. -/
def toFix (now : Nat) (f : Frame) : Option Fix :=
  if startswith f.raw "$GNGGA" || startswith f.raw "$GNRMC" then
    match f.decodeResult with
    | .ok parsed =>
      match parsed.latitude, parsed.longitude with
      | some lat, some lon => some ⟨lat, lon, tsOf parsed now⟩
      | _, _ => none
    | _ => none
  else
    none

/-- `_process_data` (lines 98-115) restricted to its data path: frames are
dequeued one at a time in FIFO order and each is handed to `_parse_nmea`;
exceptions never escape `_parse_nmea`, and the `queue.Empty` timeout only
re-checks the running flag, so a run that consumes a given sequence of
frames folds `_parse_nmea` over it in order. -/
def process_data (s : TrackerState) (now : Nat) : List Frame → TrackerState
  | [] => s
  | f :: fs => process_data (parse_nmea s now f).1 now fs

/-- `_save_map` (lines 197-209): if `self.track_points` is non-empty, set
the map center to the last point's coordinates and save (export) the map;
otherwise do nothing.  The returned boolean records whether `map.save`
was called. -/
def save_map (s : TrackerState) : TrackerState × Bool :=
  match s.track_points.getLast? with
  | none => (s, false)
  | some last => ({ s with location := (last.latitude, last.longitude) }, true)

/-- Python `str.splitlines` restricted to the terminators a serial NMEA
stream produces (a `readline` result can contain carriage returns): splits
on a line feed, a carriage return, or a carriage-return-line-feed pair,
with no trailing empty entry. -/
def splitlinesAux : List Char → List Char → List String
  | [], acc => if acc.isEmpty then [] else [String.mk acc.reverse]
  | '\r' :: '\n' :: rest, acc => String.mk acc.reverse :: splitlinesAux rest []
  | '\r' :: rest, acc => String.mk acc.reverse :: splitlinesAux rest []
  | '\n' :: rest, acc => String.mk acc.reverse :: splitlinesAux rest []
  | c :: rest, acc => splitlinesAux rest (c :: acc)

/-- Python `s.splitlines()`. -/
def splitlines (s : String) : List String :=
  splitlinesAux s.toList []

/-- The enqueue loop of `_receive_data` (lines 91-93):

    for item in nmea_sentence:
        nmea_sentence = "".join(nmea_sentence[0])
        self.data_queue.put(nmea_sentence)

The loop iterates once per element of the `splitlines` result, but the
first iteration rebinds `nmea_sentence` to the first line, so every later
iteration evaluates `nmea_sentence[0]` on that string and enqueues its
first character (raising `IndexError` if the first line is empty, after
the first line was already enqueued).  Returns the enqueued frames in
order, paired with whether the loop raised. -/
def putFrames : List String → List String × Bool
  | [] => ([], false)
  | [l0] => ([l0], false)
  | l0 :: rest =>
    match l0.toList.head? with
    | none => ([l0], true)
    | some c => (l0 :: rest.map (fun _ => String.mk [c]), false)

/-- What one pass of the `_receive_data` loop body observes: either a
successfully read and text-decoded chunk (the `readline().decode().strip()`
result) or an exception raised inside the `try` block (an I/O fault of the
serial read, a byte-to-text decode failure, ...). -/
inductive ReadEvent where
  | chunk (s : String)
  | fault
deriving DecidableEq, Repr

/-- The Frame Reader's state: the shared `self.is_running` flag and the
frames enqueued to `self.data_queue` so far. -/
structure ReceiverState where
  is_running : Bool
  queued : List String
deriving DecidableEq, Repr

/-- One iteration of the `_receive_data` loop (lines 84-96).  If the
running flag is down the loop has exited and nothing happens.  Otherwise a
chunk is split into lines and the enqueue loop runs; any exception —
either the read fault itself or the `IndexError` of the enqueue loop — is
caught at line 94 and sets `self.is_running = False`. -/
def receive_step (st : ReceiverState) (ev : ReadEvent) : ReceiverState :=
  if st.is_running then
    match ev with
    | .fault => { st with is_running := false }
    | .chunk c =>
      let r := putFrames (splitlines c)
      { is_running := !r.2, queued := st.queued ++ r.1 }
  else
    st

/-- The `_receive_data` loop over a sequence of read outcomes. -/
def receive_run (st : ReceiverState) : List ReadEvent → ReceiverState
  | [] => st
  | ev :: evs => receive_run (receive_step st ev) evs

/-- The first frame of the end-to-end scenario of the specification
(section 8): a `$GNGGA` sentence decoding to latitude 35, longitude 139. -/
def ggaFrame : Frame := ⟨"$GNGGA,064036.289", .ok ⟨some 35, some 139, some 7, none⟩⟩

/-- The second frame of the end-to-end scenario: a `$GNRMC` sentence
decoding to latitude 35.1, longitude 139.1. -/
def rmcFrame : Frame := ⟨"$GNRMC,064036.289", .ok ⟨some (351/10), some (1391/10), some 8, none⟩⟩

/-- An unsupported sentence type: decodes fine but is not in the
recognized set. -/
def gllFrame : Frame := ⟨"$GPGLL,3723.2475", .ok ⟨some 37, some (-122), some 5, none⟩⟩

/-- A recognized sentence on which the decoder raises `ParseError`. -/
def badFrame : Frame := ⟨"$GNGGA,*77", .parseError⟩

/-- A tracker state holding a single track point, for concrete checks. -/
def oneFixState : TrackerState :=
  { initState with track_points := [⟨35, 139, 7⟩] }

/- ### Helper lemmas -/

theorem update_map_track (s : TrackerState) (p : Fix) :
    (update_map s p).track_points = s.track_points := by
  simp only [update_map]
  split <;> rfl

theorem append_fix_track (s : TrackerState) (p : Fix) :
    (append_fix s p).track_points = s.track_points ++ [p] := by
  unfold append_fix
  rw [update_map_track]

/-- `_parse_nmea` refines the state-independent per-frame extraction
`toFix`: an accepted frame appends its fix and returns it, every other
frame returns `None` with the state untouched. -/
theorem parse_nmea_eq (s : TrackerState) (now : Nat) (f : Frame) :
    parse_nmea s now f =
      match toFix now f with
      | some p => (append_fix s p, some p)
      | none => (s, none) := by
  rcases f with ⟨raw, d⟩
  simp only [parse_nmea, parse_nmea_try, toFix]
  by_cases hb : (startswith raw "$GNGGA" || startswith raw "$GNRMC") = true
  · simp only [hb, if_true]
    cases d with
    | parseError => rfl
    | exn => rfl
    | ok parsed =>
      rcases parsed with ⟨plat, plon, pts, pdt⟩
      cases plat <;> cases plon <;> rfl
  · simp [hb]

theorem toFix_isSome (now : Nat) (f : Frame) :
    (toFix now f).isSome = acceptedFrame f := by
  rcases f with ⟨raw, d⟩
  simp only [toFix, acceptedFrame]
  by_cases hb : (startswith raw "$GNGGA" || startswith raw "$GNRMC") = true
  · simp only [hb, if_true, Bool.true_and]
    cases d with
    | parseError => rfl
    | exn => rfl
    | ok parsed =>
      rcases parsed with ⟨plat, plon, pts, pdt⟩
      cases plat <;> cases plon <;> rfl
  · simp only [hb, if_false]
    simp only [Bool.not_eq_true] at hb
    simp [hb]

theorem process_data_track (s : TrackerState) (now : Nat) (frames : List Frame) :
    (process_data s now frames).track_points
      = s.track_points ++ frames.filterMap (toFix now) := by
  induction frames generalizing s with
  | nil => simp [process_data]
  | cons f fs ih =>
    rw [process_data, ih, parse_nmea_eq]
    cases h : toFix now f with
    | none => simp [h]
    | some p => simp [h, append_fix_track]

theorem length_filterMap_toFix (now : Nat) (frames : List Frame) :
    (frames.filterMap (toFix now)).length
      = (frames.filter acceptedFrame).length := by
  induction frames with
  | nil => rfl
  | cons f fs ih =>
    have h := toFix_isSome now f
    cases hf : toFix now f <;> cases ha : acceptedFrame f <;>
      simp_all [List.filterMap_cons, List.filter_cons]

theorem process_data_append (s : TrackerState) (now : Nat) (xs ys : List Frame) :
    process_data s now (xs ++ ys)
      = process_data (process_data s now xs) now ys := by
  induction xs generalizing s with
  | nil => rfl
  | cons f fs ih => simp [process_data, ih]

theorem receive_step_stopped (q : List String) (ev : ReadEvent) :
    receive_step ⟨false, q⟩ ev = ⟨false, q⟩ := rfl

theorem receive_run_stopped (q : List String) (evs : List ReadEvent) :
    receive_run ⟨false, q⟩ evs = ⟨false, q⟩ := by
  induction evs with
  | nil => rfl
  | cons ev evs ih => rw [receive_run, receive_step_stopped]; exact ih

/- ### Claim theorems -/

/-- C1: for every sequence of frames handed to the Fix Extractor, the
final Track length equals the number of frames that start with `$GNGGA`
or `$GNRMC`, are successfully decoded, and expose both a latitude and a
longitude; every other frame leaves the Track unchanged. -/
theorem C1_track_length (s : TrackerState) (now : Nat) (frames : List Frame) :
    (process_data s now frames).track_points.length
        = s.track_points.length + (frames.filter acceptedFrame).length ∧
      ∀ f, acceptedFrame f = false →
        (parse_nmea s now f).1.track_points = s.track_points := by
  constructor
  · rw [process_data_track, List.length_append, length_filterMap_toFix]
  · intro f hf
    rw [parse_nmea_eq]
    have h : toFix now f = none := by
      have := toFix_isSome now f
      rw [hf] at this
      exact Option.not_isSome_iff_eq_none.mp (by simp [this])
    rw [h]

theorem C1_track_length_witness :
    (process_data initState 0 [ggaFrame, gllFrame, badFrame, rmcFrame]).track_points.length = 2 ∧
      (parse_nmea initState 0 gllFrame).1.track_points = [] := by
  constructor
  · rw [(C1_track_length initState 0 [ggaFrame, gllFrame, badFrame, rmcFrame]).1]
    decide
  · exact (C1_track_length initState 0 []).2 gllFrame (by decide)

/-- C2: the Track is the order-preserving subsequence of the accepted
frames — processing is a fold of `_parse_nmea` over the frames in FIFO
arrival order, each accepted frame appends its fix at the end, so the
final Track is exactly the in-order image of the accepted frames under
the per-frame extraction `toFix`. -/
theorem C2_fifo_order (s : TrackerState) (now : Nat) (frames : List Frame) :
    (process_data s now frames).track_points
      = s.track_points ++ frames.filterMap (toFix now) :=
  process_data_track s now frames

/-- C3: evaluation at the failing input.  The chunk `"A\rB"` contains the
two complete frames `"A"` and `"B"`, but the enqueue loop of
`_receive_data` enqueues `"A"` twice: the second iteration re-reads
`nmea_sentence[0]` after `nmea_sentence` was rebound to the first frame,
so the frame `"B"` is never enqueued. -/
theorem C3_multiframe_chunk :
    splitlines "A\rB" = ["A", "B"] ∧
      receive_step ⟨true, []⟩ (ReadEvent.chunk "A\rB") = ⟨true, ["A", "A"]⟩ := by
  decide

/-- C4 counterexample: the document does not hold at most one polyline.
After three accepted fixes, `_update_map` has added a polyline on the
second and on the third append and removed neither, so the document
holds two polylines. -/
theorem C4_counterexample :
    ¬ (append_fix (append_fix (append_fix initState ⟨1, 2, 3⟩) ⟨4, 5, 6⟩)
        ⟨7, 8, 9⟩).polylines.length ≤ 1 := by
  decide

/-- C4 amended: for every accepted fix, append adds exactly one marker at
the fix's coordinates annotated with its timestamp, and whenever the
Track has at least 2 points after the append, a new path polyline
recomputed from the entire current Track is added to the document; the
previously drawn polylines are not removed. -/
theorem C4_append_render (s : TrackerState) (p : Fix) :
    (append_fix s p).track_points = s.track_points ++ [p] ∧
      (append_fix s p).markers
        = s.markers ++ [⟨p.latitude, p.longitude, p.timestamp⟩] ∧
      (append_fix s p).polylines
        = (if s.track_points = [] then s.polylines
           else s.polylines
             ++ [(s.track_points ++ [p]).map fun q => (q.latitude, q.longitude)]) := by
  refine ⟨append_fix_track s p, ?_, ?_⟩ <;>
    · rcases s with ⟨tps, loc, mks, pls⟩
      simp only [append_fix, update_map]
      cases tps with
      | nil => simp
      | cons a l => simp [List.length_append]

/-- C5: a frame on which the decoder raises (malformed checksum or
grammar) is discarded without mutating the Track or the document, and a
malformed frame interleaved between two other frames leaves the whole
run's outcome unchanged, so the surrounding valid fixes keep their
relative order.  (The accompanying log line is a console print, an I/O
effect outside the modelled state.) -/
theorem C5_decode_failure (s : TrackerState) (now : Nat) (raw : String)
    (xs ys : List Frame) :
    parse_nmea s now ⟨raw, DecodeOutcome.parseError⟩ = (s, none) ∧
      process_data s now (xs ++ ⟨raw, DecodeOutcome.parseError⟩ :: ys)
        = process_data s now (xs ++ ys) := by
  have hp : ∀ t : TrackerState,
      parse_nmea t now ⟨raw, DecodeOutcome.parseError⟩ = (t, none) := by
    intro t
    rw [parse_nmea_eq]
    have h : toFix now ⟨raw, DecodeOutcome.parseError⟩ = none := by
      unfold toFix
      split <;> rfl
    rw [h]
  refine ⟨hp s, ?_⟩
  rw [process_data_append, process_data_append, process_data, hp]

/-- C6: `_save_map` on an empty Track is a silent no-op (no export call,
state unchanged); on a non-empty Track it sets the document center to
the last appended fix's coordinates and exports. -/
theorem C6_finalize (s : TrackerState) :
    (s.track_points = [] → save_map s = (s, false)) ∧
      ∀ last, s.track_points.getLast? = some last →
        save_map s = ({ s with location := (last.latitude, last.longitude) }, true) := by
  constructor
  · intro h
    unfold save_map
    rw [h]
    rfl
  · intro last h
    unfold save_map
    rw [h]

theorem C6_finalize_witness :
    save_map initState = (initState, false) ∧
      save_map oneFixState = ({ oneFixState with location := (35, 139) }, true) := by
  constructor
  · exact (C6_finalize initState).1 rfl
  · exact (C6_finalize oneFixState).2 ⟨35, 139, 7⟩ (by decide)

/-- C7: when an exception is raised inside the Frame Reader's read loop,
the shared running flag is set to false and the loop exits: however many
further read opportunities follow, none is taken — the state stays
frozen with the flag down and no frame is ever enqueued again. -/
theorem C7_fault_stops (q : List String) (evs : List ReadEvent) :
    receive_run ⟨true, q⟩ (ReadEvent.fault :: evs) = ⟨false, q⟩ := by
  rw [receive_run]
  have h1 : receive_step ⟨true, q⟩ ReadEvent.fault = ⟨false, q⟩ := rfl
  rw [h1]
  exact receive_run_stopped q evs

/-- C8: the Track is append-only — `_parse_nmea` either leaves the Track
unchanged or appends exactly one fix at the end, the append path appends
exactly one fix, and `_update_map` and `_save_map` never touch the
Track. -/
theorem C8_append_only (s : TrackerState) (now : Nat) (f : Frame) (p : Fix) :
    ((parse_nmea s now f).1.track_points = s.track_points ∨
        ∃ q, (parse_nmea s now f).1.track_points = s.track_points ++ [q]) ∧
      (append_fix s p).track_points = s.track_points ++ [p] ∧
      (update_map s p).track_points = s.track_points ∧
      (save_map s).1.track_points = s.track_points := by
  refine ⟨?_, append_fix_track s p, update_map_track s p, ?_⟩
  · rw [parse_nmea_eq]
    cases h : toFix now f with
    | none => exact Or.inl rfl
    | some q => exact Or.inr ⟨q, append_fix_track s q⟩
  · unfold save_map
    cases h : s.track_points.getLast? <;> rfl

/-- C9: appending the same fix twice from a fresh tracker yields a Track
of length 2 holding the fix twice, and the recomputed path is a polyline
of 2 identical points — append never deduplicates. -/
theorem C9_no_dedup (p : Fix) :
    (append_fix (append_fix initState p) p).track_points = [p, p] ∧
      (append_fix (append_fix initState p) p).track_points.length = 2 ∧
      (append_fix (append_fix initState p) p).polylines
        = [[(p.latitude, p.longitude), (p.latitude, p.longitude)]] := by
  rcases p with ⟨la, lo, ts⟩
  simp [append_fix, update_map, initState]

/-- C10: for a frame that starts with a recognized marker and decodes to
an object lacking the latitude or the longitude attribute, the `try`
block of `_parse_nmea` raises `UnboundLocalError` at `return track_point`
(the variable was never assigned); the error is caught inside
`_parse_nmea`, which returns `None` with the Track and document
unchanged, so no exception escapes to the processing loop. -/
theorem C10_unbound_local (s : TrackerState) (now : Nat) (raw : String) (p : Parsed)
    (hrec : (startswith raw "$GNGGA" || startswith raw "$GNRMC") = true)
    (hmiss : p.latitude = none ∨ p.longitude = none) :
    parse_nmea_try s now ⟨raw, DecodeOutcome.ok p⟩ = .error .unboundLocal ∧
      parse_nmea s now ⟨raw, DecodeOutcome.ok p⟩ = (s, none) := by
  rcases p with ⟨plat, plon, pts, pdt⟩
  have h1 : parse_nmea_try s now ⟨raw, DecodeOutcome.ok ⟨plat, plon, pts, pdt⟩⟩
      = .error .unboundLocal := by
    unfold parse_nmea_try
    simp only [hrec, if_true]
    rcases hmiss with h | h <;> simp only at h <;> subst h
    · rfl
    · cases plat <;> rfl
  refine ⟨h1, ?_⟩
  unfold parse_nmea
  rw [h1]

theorem C10_unbound_local_witness :
    parse_nmea_try initState 0 ⟨"$GNGGA,1", DecodeOutcome.ok ⟨none, some 1, none, none⟩⟩
        = .error .unboundLocal ∧
      parse_nmea initState 0 ⟨"$GNGGA,1", DecodeOutcome.ok ⟨none, some 1, none, none⟩⟩
        = (initState, none) :=
  C10_unbound_local initState 0 "$GNGGA,1" ⟨none, some 1, none, none⟩
    (by decide) (Or.inl rfl)

end NMEA
